import Mathlib

/-!
Shallow embedding of the fund front-end scripts: form handlers, the
disclosure (show-more / show-less) renderer, the fund-info summary/full
toggle, the chart re-render lifecycle, and the result-table renderer.

Sources embedded:
- the main front-end script (fund list, fund info, optimize, backtest
  handlers and renderers);
- the secondary script `app/static/js/main.js` (optimize form and
  `displayResults`).

DOM state is modelled explicitly: rendered list items, displayed text
content, button labels, button visibility, and the click listeners
registered on each toggle button (listeners accumulate, as
`addEventListener` never removes earlier ones). Chart.js instances are
modelled by identifiers: each `new Chart` allocates a fresh identifier
bound to its canvas, and `destroy` removes the identifier from the live
set of that canvas. Numeric weights are modelled as exact rationals; at
the concrete inputs proved below the IEEE double computation of the
script produces the same digits.
-/

namespace FundFrontend

/-! ### Chart renderer lifecycle

The script keeps one module-level variable `optimizeChartInstance`
(initially null) for the bar chart; `renderOptimizeChart` destroys the
stored instance, if any, before creating and storing a new one.
`renderBacktestChart` creates a new chart on its own canvas and stores no
reference; nothing is ever destroyed there. -/

/-- One (date, value) sample of `data.portfolio_value`. -/
structure PortfolioEntry where
  date : String
  value : ℚ
  deriving DecidableEq

/-- The data handed to the bar chart: labels are object keys of
`data.weights`, values the corresponding weights. -/
structure BarChartData where
  labels : List String
  values : List ℚ
  deriving DecidableEq

/-- The data handed to the line chart after down-sampling. -/
structure BacktestChartData where
  labels : List String
  datasetData : List ℚ
  deriving DecidableEq

/-- Global chart bookkeeping: fresh-identifier counter, undisposed
instances per canvas, and the module-level `optimizeChartInstance`
variable. -/
structure ChartState where
  nextId : Nat
  liveOptimize : List Nat
  liveBacktest : List Nat
  optimizeChartInstance : Option Nat
  deriving DecidableEq

/-- Page load: no chart has been created, `optimizeChartInstance` is null. -/
def initChartState : ChartState :=
  { nextId := 0, liveOptimize := [], liveBacktest := [], optimizeChartInstance := none }

/-- Embedding of `renderOptimizeChart(data)`: destroy the stored instance
if one exists, then create a new bar chart on the optimize canvas and
store it in `optimizeChartInstance`. -/
def renderOptimizeChart (weights : List (String × ℚ)) (s : ChartState) :
    ChartState × BarChartData :=
  let live :=
    match s.optimizeChartInstance with
    | some i => s.liveOptimize.erase i
    | none => s.liveOptimize
  ({ nextId := s.nextId + 1
     liveOptimize := s.nextId :: live
     liveBacktest := s.liveBacktest
     optimizeChartInstance := some s.nextId },
   { labels := weights.map Prod.fst, values := weights.map Prod.snd })

/-- Embedding of the sampling loop of `renderBacktestChart`:
`for (let i = 0; i < a.length; i += 7) out.push(a[i])`. -/
def sampledPortfolio {α : Type} : List α → List α
  | [] => []
  | x :: xs => x :: sampledPortfolio (xs.drop 6)
termination_by l => l.length
decreasing_by
  simp only [List.length_drop, List.length_cons]
  omega

/-- Embedding of `renderBacktestChart(data)`: down-sample
`data.portfolio_value`, then create a new line chart on the backtest
canvas. No previous instance is destroyed and no reference is kept. -/
def renderBacktestChart (data : List PortfolioEntry) (s : ChartState) :
    ChartState × BacktestChartData :=
  let sampledPortfolioValue := sampledPortfolio data
  ({ s with nextId := s.nextId + 1, liveBacktest := s.nextId :: s.liveBacktest },
   { labels := sampledPortfolioValue.map (fun e => e.date)
     datasetData := sampledPortfolioValue.map (fun e => e.value) })

/-- A chart render operation with its input payload. -/
inductive RenderOp where
  | optimize (weights : List (String × ℚ))
  | backtest (data : List PortfolioEntry)
  deriving DecidableEq

def applyRenderOp (s : ChartState) : RenderOp → ChartState
  | .optimize w => (renderOptimizeChart w s).1
  | .backtest d => (renderBacktestChart d s).1

def applyRenderOps (s : ChartState) : List RenderOp → ChartState
  | [] => s
  | op :: ops => applyRenderOps (applyRenderOp s op) ops

/-- Invariant of the optimize canvas: the stored reference is live, and it
is the only live instance on that canvas. -/
def OptimizeCanvasInv (s : ChartState) : Prop :=
  (s.optimizeChartInstance = none ∧ s.liveOptimize = []) ∨
  ∃ i, s.optimizeChartInstance = some i ∧ s.liveOptimize = [i]

/-! ### Disclosure renderer (`displayFunds`)

DOM state: the rendered `<li>` items of `fundList`, the toggle button
label and visibility, and the click listeners registered on the toggle
button. Each listener is a closure over the `funds` argument of the
`displayFunds` invocation that registered it; `addEventListener` appends
and never removes, so a click runs every registered listener in
registration order. -/

def MAX_FUNDS_TO_SHOW : Nat := 10

structure FundListState where
  fundList : List String
  toggleLabel : String
  toggleVisible : Bool
  listeners : List (List String)
  deriving DecidableEq

/-- Page load: empty list, no listeners registered yet. -/
def initFundListState : FundListState :=
  { fundList := [], toggleLabel := "", toggleVisible := false, listeners := [] }

/-- Embedding of `displayFunds(funds)`: clear the list, render the first
`MAX_FUNDS_TO_SHOW` items; if more items exist, show the button, set its
label to 查看更多 and register one more click listener, else hide the
button. -/
def displayFunds (funds : List String) (s : FundListState) : FundListState :=
  let initialFunds := funds.take MAX_FUNDS_TO_SHOW
  if funds.length > MAX_FUNDS_TO_SHOW then
    { fundList := initialFunds
      toggleLabel := "查看更多"
      toggleVisible := true
      listeners := s.listeners ++ [funds] }
  else
    { fundList := initialFunds
      toggleLabel := s.toggleLabel
      toggleVisible := false
      listeners := s.listeners }

/-- One registered fund-list click listener, a closure over `funds`: if
the label is 查看更多, append `funds.slice(10)` and set the label to
收起; else remove every rendered item at position ≥ 10 and set the label
back to 查看更多. -/
def fundToggleStep (funds : List String) (p : List String × String) :
    List String × String :=
  if p.2 = "查看更多" then
    (p.1 ++ funds.drop MAX_FUNDS_TO_SHOW, "收起")
  else
    (p.1.take MAX_FUNDS_TO_SHOW, "查看更多")

/-- One click of the fund-list toggle button: run every registered
listener in registration order on the (rendered list, label) pair. -/
def clickFundToggle (s : FundListState) : FundListState :=
  let p := s.listeners.foldl (fun q f => fundToggleStep f q) (s.fundList, s.toggleLabel)
  { s with fundList := p.1, toggleLabel := p.2 }

/-! ### Result renderer, fund-info variant (`displayFundInfo`)

The fund info object has four summary fields (code, name, type, manager)
and arbitrary further fields; displayed content is modelled as the
ordered field list that `JSON.stringify` serializes. Each invocation
sets the summary content, the 展开完整信息 label, and registers one more
click listener (a closure over its own `fundInfo`); a click of the
toggle button runs every registered listener in registration order. -/

structure FundInfo where
  fund_code : String
  fund_name : String
  fund_type : String
  manager : String
  extraFields : List (String × String)
  deriving DecidableEq

/-- The `summary` object built by `displayFundInfo`: exactly four renamed
fields of the source object. -/
def summaryOf (f : FundInfo) : List (String × String) :=
  [("基金代码", f.fund_code), ("基金名称", f.fund_name),
   ("基金类型", f.fund_type), ("基金经理", f.manager)]

/-- The `fullInfo` object: the entire source object. -/
def fullOf (f : FundInfo) : List (String × String) :=
  [("fund_code", f.fund_code), ("fund_name", f.fund_name),
   ("fund_type", f.fund_type), ("manager", f.manager)] ++ f.extraFields

structure FundInfoState where
  content : List (String × String)
  label : String
  listeners : List FundInfo
  deriving DecidableEq

/-- Page load: nothing displayed, no listeners registered yet. -/
def initFundInfoState : FundInfoState :=
  { content := [], label := "", listeners := [] }

/-- Embedding of `displayFundInfo(fundInfo)`: display the summary, set
the label to 展开完整信息, and register one more click listener. -/
def displayFundInfo (fundInfo : FundInfo) (s : FundInfoState) : FundInfoState :=
  { content := summaryOf fundInfo
    label := "展开完整信息"
    listeners := s.listeners ++ [fundInfo] }

/-- One registered fund-info click listener, a closure over `f`: if the
label is 展开完整信息, display the full object and set the label to
收起完整信息; else display the summary and set the label back. -/
def infoToggleStep (f : FundInfo) (p : List (String × String) × String) :
    List (String × String) × String :=
  if p.2 = "展开完整信息" then (fullOf f, "收起完整信息")
  else (summaryOf f, "展开完整信息")

/-- Run every registered listener in registration order on the
(content, label) pair. -/
def clickInfoPair (ls : List FundInfo) (p : List (String × String) × String) :
    List (String × String) × String :=
  ls.foldl (fun q g => infoToggleStep g q) p

/-- One click of the fund-info toggle button. -/
def clickInfoToggle (s : FundInfoState) : FundInfoState :=
  { content := (clickInfoPair s.listeners (s.content, s.label)).1
    label := (clickInfoPair s.listeners (s.content, s.label)).2
    listeners := s.listeners }

/-- What one listener does to the label, whatever its closure holds. -/
def flipLabel (L : String) : String :=
  if L = "展开完整信息" then "收起完整信息" else "展开完整信息"

/-! ### Form-submission handlers and the API client

A fetch either rejects (network failure) or resolves with a status code
and a body; `response.json()` rejects when the body is not JSON
(modelled as `none`). The handlers never read the status code, and every
exception thrown inside the `try` block is caught by the `catch`, which
only calls `console.error`. -/

/-- Outcome of one `fetch` together with `response.json()`:
either the fetch promise rejects, or a response arrives with a status
code and a body that parses to `some` payload or fails to parse. -/
inductive FetchOutcome (α : Type) where
  | networkError
  | response (status : Nat) (body : Option α)
  deriving DecidableEq

/-- A failure in the sense of the spec sentence: network failure,
malformed JSON, or a non-2xx status. -/
def isFailure {α : Type} : FetchOutcome α → Prop
  | .networkError => True
  | .response status body => body = none ∨ ¬ (200 ≤ status ∧ status < 300)

/-- Parsed JSON body of the `/funds` response: the `data` field holds the
fund-id list, or is absent. -/
structure FundsResponse where
  data : Option (List String)
  deriving DecidableEq

/-- Embedding of the `fundForm` submit handler around `displayFunds`.
Returns the fund-list DOM state after the handler and whether
`console.error` ran. On a network error or a JSON parse failure the
exception is thrown before any DOM write. When the body parses but has
no `data` field, `displayFunds(undefined)` first clears the list and
then throws on `funds.slice`, which the submit handler catches. The
status code is never inspected. -/
def handleFundFormResponse (o : FetchOutcome FundsResponse) (s : FundListState) :
    FundListState × Bool :=
  match o with
  | .networkError => (s, true)
  | .response _ none => (s, true)
  | .response _ (some r) =>
    match r.data with
    | some funds => (displayFunds funds s, false)
    | none => ({ s with fundList := [] }, true)

/-- Floor of a rational as an integer, by floor division of the
numerator by the denominator. -/
def ratFloor (q : ℚ) : ℤ :=
  Int.fdiv q.num q.den

/-- Embedding of `x.toFixed(2)` on exact rationals: round `x` to the
nearest hundredth (on a tie toward the larger value, as `toFixed` picks
the larger candidate) and print two decimal digits. -/
def toFixed2 (x : ℚ) : String :=
  let n : ℤ := ratFloor (x * 100 + 1 / 2)
  let whole := n / 100
  let frac := (n % 100).toNat
  toString whole ++ "." ++ (if frac < 10 then "0" ++ toString frac else toString frac)

/-- Embedding of `displayResults(result)` of `main.js`: one table row per
entry of `result.weights`, in object-key order, showing the fund code and
`(weight * 100).toFixed(2) + "%"`. -/
def displayResults (weights : List (String × ℚ)) : List (String × String) :=
  weights.map (fun cw => (cw.1, toFixed2 (cw.2 * 100) ++ "%"))

/-- Parsed JSON body of the `/api/optimize` response of `main.js`: the
`weights` object as an ordered (code, weight) list, or absent. -/
structure OptimizeResponseMain where
  weights : Option (List (String × ℚ))
  deriving DecidableEq

/-- Embedding of the `optimizeForm` submit handler of `main.js`. Returns
the rendered result table after the handler and whether `console.error`
ran. `Object.entries(result.weights)` throws before `innerHTML` is
assigned when `weights` is absent, so the previous table survives every
failure; the status code is never inspected. -/
def handleOptimizeFormMain (o : FetchOutcome OptimizeResponseMain)
    (rendered : List (String × String)) : List (String × String) × Bool :=
  match o with
  | .networkError => (rendered, true)
  | .response _ none => (rendered, true)
  | .response _ (some r) =>
    match r.weights with
    | some ws => (displayResults ws, false)
    | none => (rendered, true)

/-! ### Request bodies built from form inputs

Both scripts build the fund list with `value.split(',')`. JavaScript
`split` with a one-character separator never returns an empty array: the
empty input yields `[""]`. -/

/-- One step of JavaScript `String.prototype.split` with a one-character
separator, folded from the right: a separator opens a new (empty) group,
any other character is prepended to the current group. -/
def splitStep (sep c : Char) (acc : List (List Char)) : List (List Char) :=
  if c = sep then [] :: acc
  else
    match acc with
    | [] => [[c]]
    | g :: gs => (c :: g) :: gs

/-- JavaScript `s.split(sep)` for a one-character separator. -/
def jsSplit (sep : Char) (s : String) : List String :=
  (s.data.foldr (splitStep sep) [[]]).map (fun cs => String.mk cs)

/-- Body of the `/optimize` POST request of the main script. -/
structure OptimizeRequest where
  fund_pool : List String
  method : String
  risk_aversion : ℚ
  deriving DecidableEq

def mkOptimizeRequest (fundPoolInput methodInput : String) (ra : ℚ) : OptimizeRequest :=
  { fund_pool := jsSplit ',' fundPoolInput, method := methodInput, risk_aversion := ra }

/-- Body of the `/backtest` POST request of the main script. -/
structure BacktestRequest where
  fund_pool : List String
  start_date : String
  end_date : String
  deriving DecidableEq

def mkBacktestRequest (fundPoolInput startDate endDate : String) : BacktestRequest :=
  { fund_pool := jsSplit ',' fundPoolInput, start_date := startDate, end_date := endDate }

/-- Body of the `/api/optimize` POST request of `main.js`. -/
structure OptimizeRequestMain where
  fund_codes : List String
  start_date : String
  end_date : String
  deriving DecidableEq

def mkOptimizeRequestMain (fundCodesInput startDate endDate : String) : OptimizeRequestMain :=
  { fund_codes := jsSplit ',' fundCodesInput, start_date := startDate, end_date := endDate }

/-! ### Sample values used by witnesses -/

def elevenFunds : List String :=
  ["a", "b", "c", "d", "e", "f", "g", "h", "i", "j", "k"]

def sampleFundInfoA : FundInfo :=
  { fund_code := "000001", fund_name := "alpha", fund_type := "mixed",
    manager := "wang", extraFields := [("scale", "100")] }

def sampleFundInfoB : FundInfo :=
  { fund_code := "000002", fund_name := "beta", fund_type := "bond",
    manager := "li", extraFields := [] }

/-! ## Theorems -/

theorem optimizeCanvasInv_init : OptimizeCanvasInv initChartState :=
  Or.inl ⟨rfl, rfl⟩

theorem optimizeCanvasInv_step (s : ChartState) (h : OptimizeCanvasInv s)
    (op : RenderOp) : OptimizeCanvasInv (applyRenderOp s op) := by
  cases op with
  | backtest d =>
    rcases h with ⟨h1, h2⟩ | ⟨i, h1, h2⟩
    · exact Or.inl ⟨h1, h2⟩
    · exact Or.inr ⟨i, h1, h2⟩
  | optimize w =>
    refine Or.inr ⟨s.nextId, rfl, ?_⟩
    rcases h with ⟨h1, h2⟩ | ⟨i, h1, h2⟩
    · simp [applyRenderOp, renderOptimizeChart, h1, h2]
    · simp [applyRenderOp, renderOptimizeChart, h1, h2]

theorem optimizeCanvasInv_run (ops : List RenderOp) :
    ∀ s : ChartState, OptimizeCanvasInv s → OptimizeCanvasInv (applyRenderOps s ops) := by
  induction ops with
  | nil => intro s hs; exact hs
  | cons op ops ih => intro s hs; exact ih _ (optimizeCanvasInv_step s hs op)

theorem sampledPortfolio_length {α : Type} (l : List α) :
    (sampledPortfolio l).length = (l.length + 6) / 7 := by
  induction l using sampledPortfolio.induct with
  | case1 => simp [sampledPortfolio]
  | case2 x xs ih =>
    simp only [sampledPortfolio, List.length_cons, ih, List.length_drop]
    omega

theorem sampledPortfolio_getElem? {α : Type} (l : List α) :
    ∀ k : Nat, (sampledPortfolio l)[k]? = l[7 * k]? := by
  induction l using sampledPortfolio.induct with
  | case1 => intro k; simp [sampledPortfolio]
  | case2 x xs ih =>
    intro k
    cases k with
    | zero => simp [sampledPortfolio]
    | succ k =>
      simp only [sampledPortfolio, List.getElem?_cons_succ]
      have h7 : 7 * (k + 1) = (6 + 7 * k) + 1 := by ring
      rw [h7, List.getElem?_cons_succ, ih k, List.getElem?_drop]

/-- C3: the down-sampling step of the line-chart render keeps exactly the
input entries at indices 0, 7, 14, ..., and its output length is
`(L + 6) / 7`, which is `ceil(L / 7)` in natural-number arithmetic; the
chart labels and dataset are the date and value projections of that
sampled subsequence. -/
theorem backtest_downsampling (data : List PortfolioEntry) (s : ChartState) :
    (sampledPortfolio data).length = (data.length + 6) / 7 ∧
    (∀ k : Nat, (sampledPortfolio data)[k]? = data[7 * k]?) ∧
    (renderBacktestChart data s).2.labels = (sampledPortfolio data).map (fun e => e.date) ∧
    (renderBacktestChart data s).2.datasetData = (sampledPortfolio data).map (fun e => e.value) :=
  ⟨sampledPortfolio_length data, sampledPortfolio_getElem? data, rfl, rfl⟩

/-- C1 counterexample: the claim fails for the line-chart render. Two
successive backtest renders leave TWO undisposed chart instances on the
backtest canvas, because `renderBacktestChart` never destroys the
previous chart and keeps no reference to it. -/
theorem backtest_canvas_two_live_counterexample :
    (applyRenderOps initChartState
        [RenderOp.backtest [], RenderOp.backtest []]).liveBacktest.length = 2 ∧
    ¬ (applyRenderOps initChartState
        [RenderOp.backtest [], RenderOp.backtest []]).liveBacktest.length ≤ 1 := by
  decide

/-- C1 amended: only the bar-chart render disposes the previous instance
before creating a new one, so after any sequence of renders at most one
undisposed chart instance exists on the OPTIMIZE canvas; the line-chart
render creates charts without disposing, so the backtest canvas can
accumulate several undisposed instances. -/
theorem optimize_canvas_at_most_one_live (ops : List RenderOp) :
    (applyRenderOps initChartState ops).liveOptimize.length ≤ 1 := by
  rcases optimizeCanvasInv_run ops initChartState optimizeCanvasInv_init with
    ⟨_, h2⟩ | ⟨i, _, h2⟩ <;> simp [h2]

/-- C5: calling the bar-chart render twice on the same canvas leaves
exactly one live instance: the first call creates instance 0 and stores
it; the second call destroys instance 0 and creates instance 1, which is
then the only live instance on the optimize canvas. -/
theorem renderOptimizeChart_twice (w1 w2 : List (String × ℚ)) :
    ((renderOptimizeChart w1 initChartState).1.optimizeChartInstance = some 0) ∧
    ((renderOptimizeChart w2 (renderOptimizeChart w1 initChartState).1).1.liveOptimize = [1]) ∧
    ((renderOptimizeChart w2 (renderOptimizeChart w1 initChartState).1).1.liveOptimize.length = 1) ∧
    (0 ∉ (renderOptimizeChart w2 (renderOptimizeChart w1 initChartState).1).1.liveOptimize) := by
  simp [renderOptimizeChart, initChartState]

/-- C2: rendering a sequence of length L > 10 from a fresh page shows
exactly items [0,10) in order; one toggle click appends the remaining
items so all L items are rendered in order; a second click removes, by
position, every rendered item at index ≥ 10, leaving exactly items
[0,10). -/
theorem displayFunds_toggle_cycle (funds : List String) (s : FundListState)
    (hlen : funds.length > 10) (hls : s.listeners = []) :
    (displayFunds funds s).fundList = funds.take 10 ∧
    (displayFunds funds s).toggleLabel = "查看更多" ∧
    (clickFundToggle (displayFunds funds s)).fundList = funds ∧
    (clickFundToggle (displayFunds funds s)).toggleLabel = "收起" ∧
    (clickFundToggle (clickFundToggle (displayFunds funds s))).fundList = funds.take 10 ∧
    (clickFundToggle (clickFundToggle (displayFunds funds s))).toggleLabel = "查看更多" := by
  have h1 : displayFunds funds s =
      { fundList := funds.take 10, toggleLabel := "查看更多", toggleVisible := true,
        listeners := [funds] } := by
    simp only [displayFunds, MAX_FUNDS_TO_SHOW, hls, List.nil_append]
    rw [if_pos hlen]
  have h2 : clickFundToggle (displayFunds funds s) =
      { fundList := funds, toggleLabel := "收起", toggleVisible := true,
        listeners := [funds] } := by
    rw [h1]
    simp [clickFundToggle, fundToggleStep, MAX_FUNDS_TO_SHOW, List.take_append_drop]
  have h3 : clickFundToggle (clickFundToggle (displayFunds funds s)) =
      { fundList := funds.take 10, toggleLabel := "查看更多", toggleVisible := true,
        listeners := [funds] } := by
    rw [h2]
    simp [clickFundToggle, fundToggleStep, MAX_FUNDS_TO_SHOW]
  exact ⟨by rw [h1], by rw [h1], by rw [h2], by rw [h2], by rw [h3], by rw [h3]⟩

/-- C2 witness: the toggle cycle on a concrete 11-element fund list. -/
theorem displayFunds_toggle_cycle_witness :
    (displayFunds elevenFunds initFundListState).fundList = elevenFunds.take 10 ∧
    (displayFunds elevenFunds initFundListState).toggleLabel = "查看更多" ∧
    (clickFundToggle (displayFunds elevenFunds initFundListState)).fundList = elevenFunds ∧
    (clickFundToggle (displayFunds elevenFunds initFundListState)).toggleLabel = "收起" ∧
    (clickFundToggle (clickFundToggle (displayFunds elevenFunds initFundListState))).fundList
      = elevenFunds.take 10 ∧
    (clickFundToggle (clickFundToggle (displayFunds elevenFunds initFundListState))).toggleLabel
      = "查看更多" :=
  displayFunds_toggle_cycle elevenFunds initFundListState (by decide) rfl

/-- C6: rendering a sequence of length L ≤ 10 hides the toggle button,
renders exactly the L items in order, and registers no click listener, so
the two-state toggle machine is never entered. -/
theorem displayFunds_short (funds : List String) (s : FundListState)
    (hlen : funds.length ≤ 10) :
    (displayFunds funds s).toggleVisible = false ∧
    (displayFunds funds s).fundList = funds ∧
    (displayFunds funds s).listeners = s.listeners := by
  have hnot : ¬ funds.length > MAX_FUNDS_TO_SHOW := by
    simp only [MAX_FUNDS_TO_SHOW]; omega
  have hle : funds.length ≤ MAX_FUNDS_TO_SHOW := by
    simp only [MAX_FUNDS_TO_SHOW]; omega
  have htake : funds.take MAX_FUNDS_TO_SHOW = funds := List.take_of_length_le hle
  refine ⟨?_, ?_, ?_⟩ <;> simp [displayFunds, if_neg hnot, htake]

/-- C6 witness: a concrete 2-element fund list hides the toggle. -/
theorem displayFunds_short_witness :
    (displayFunds ["a", "b"] initFundListState).toggleVisible = false ∧
    (displayFunds ["a", "b"] initFundListState).fundList = ["a", "b"] ∧
    (displayFunds ["a", "b"] initFundListState).listeners = initFundListState.listeners :=
  displayFunds_short ["a", "b"] initFundListState (by decide)

theorem infoToggleStep_snd (f : FundInfo) (p : List (String × String) × String) :
    (infoToggleStep f p).2 = flipLabel p.2 := by
  by_cases h : p.2 = "展开完整信息" <;> simp [infoToggleStep, flipLabel, h]

theorem clickInfoPair_snd (ls : List FundInfo) :
    ∀ p : List (String × String) × String,
      (clickInfoPair ls p).2 = flipLabel^[ls.length] p.2 := by
  induction ls with
  | nil => intro p; simp [clickInfoPair]
  | cons f fs ih =>
    intro p
    simp only [clickInfoPair, List.foldl_cons, List.length_cons]
    rw [Function.iterate_succ_apply]
    have h := ih (infoToggleStep f p)
    simp only [clickInfoPair] at h
    rw [h, infoToggleStep_snd]

theorem flipLabel_iterate_expand (m : Nat) :
    flipLabel^[m] "展开完整信息" =
      if m % 2 = 0 then "展开完整信息" else "收起完整信息" := by
  induction m with
  | zero => rfl
  | succ m ih =>
    rw [Function.iterate_succ_apply', ih]
    by_cases h : m % 2 = 0
    · have h1 : (m + 1) % 2 ≠ 0 := by omega
      simp [h, h1, flipLabel]
    · have h1 : (m + 1) % 2 = 0 := by omega
      simp [h, h1, flipLabel]

theorem flipLabel_iterate_collapse (m : Nat) :
    flipLabel^[m] "收起完整信息" =
      if m % 2 = 0 then "收起完整信息" else "展开完整信息" := by
  induction m with
  | zero => rfl
  | succ m ih =>
    rw [Function.iterate_succ_apply', ih]
    by_cases h : m % 2 = 0
    · have h1 : (m + 1) % 2 ≠ 0 := by omega
      simp [h, h1, flipLabel]
    · have h1 : (m + 1) % 2 = 0 := by omega
      simp [h, h1, flipLabel]

/-- Two clicks right after an invocation of `displayFundInfo` bring the
(content, label) pair back to (summary, 展开完整信息), however many
listeners earlier invocations have accumulated. -/
theorem clickInfoPair_two (ls : List FundInfo) (f : FundInfo) :
    clickInfoPair (ls ++ [f])
        (clickInfoPair (ls ++ [f]) (summaryOf f, "展开完整信息")) =
      (summaryOf f, "展开完整信息") := by
  have happ : ∀ p, clickInfoPair (ls ++ [f]) p = infoToggleStep f (clickInfoPair ls p) := by
    intro p; simp [clickInfoPair, List.foldl_append]
  rw [happ, happ]
  by_cases h : ls.length % 2 = 0
  · have h1 : (clickInfoPair ls (summaryOf f, "展开完整信息")).2 = "展开完整信息" := by
      rw [clickInfoPair_snd, flipLabel_iterate_expand]
      simp [h]
    have h2 : infoToggleStep f (clickInfoPair ls (summaryOf f, "展开完整信息")) =
        (fullOf f, "收起完整信息") := by
      unfold infoToggleStep
      rw [if_pos h1]
    rw [h2]
    have h3 : (clickInfoPair ls (fullOf f, "收起完整信息")).2 = "收起完整信息" := by
      rw [clickInfoPair_snd, flipLabel_iterate_collapse]
      simp [h]
    unfold infoToggleStep
    rw [h3, if_neg (by decide)]
  · have h1 : (clickInfoPair ls (summaryOf f, "展开完整信息")).2 = "收起完整信息" := by
      rw [clickInfoPair_snd, flipLabel_iterate_expand]
      simp [h]
    have h2 : infoToggleStep f (clickInfoPair ls (summaryOf f, "展开完整信息")) =
        (summaryOf f, "展开完整信息") := by
      unfold infoToggleStep
      rw [h1, if_neg (by decide)]
    rw [h2]
    exact h2

/-- C4: invoking `displayFundInfo` displays the 4-field summary with the
展开完整信息 (show full) label; two successive clicks of the toggle
return the displayed content and the label to exactly their values
before the first click, whatever listeners earlier invocations have
accumulated; re-invoking with a new source object resets the content and
label to that object's summary view. -/
theorem displayFundInfo_two_click_identity (f g : FundInfo) (s : FundInfoState) :
    (displayFundInfo f s).content = summaryOf f ∧
    (displayFundInfo f s).label = "展开完整信息" ∧
    (clickInfoToggle (clickInfoToggle (displayFundInfo f s))).content
      = (displayFundInfo f s).content ∧
    (clickInfoToggle (clickInfoToggle (displayFundInfo f s))).label
      = (displayFundInfo f s).label ∧
    (displayFundInfo g (clickInfoToggle (displayFundInfo f s))).content = summaryOf g ∧
    (displayFundInfo g (clickInfoToggle (displayFundInfo f s))).label = "展开完整信息" := by
  have key := clickInfoPair_two s.listeners f
  refine ⟨rfl, rfl, ?_, ?_, rfl, rfl⟩ <;>
  · simp only [displayFundInfo, clickInfoToggle, Prod.mk.eta]
    rw [key]

/-- C9: every invocation of `displayFundInfo` (and of `displayFunds` when
the toggle is visible) registers one more click listener without removing
the earlier ones, so one click runs all accumulated toggle steps in
registration order; in particular, after two invocations one click leaves
the displayed content and the label unchanged. -/
theorem toggle_listeners_accumulate (f g : FundInfo) (funds : List String)
    (s : FundInfoState) (t : FundListState)
    (hfunds : funds.length > 10) (hs : s.listeners = []) :
    (displayFundInfo f s).listeners = s.listeners ++ [f] ∧
    (displayFunds funds t).listeners = t.listeners ++ [funds] ∧
    (clickInfoToggle (displayFundInfo g (displayFundInfo f s))).content
      = (displayFundInfo g (displayFundInfo f s)).content ∧
    (clickInfoToggle (displayFundInfo g (displayFundInfo f s))).label
      = (displayFundInfo g (displayFundInfo f s)).label := by
  have hcond : funds.length > MAX_FUNDS_TO_SHOW := by
    simp only [MAX_FUNDS_TO_SHOW]; omega
  refine ⟨rfl, ?_, ?_, ?_⟩
  · simp [displayFunds, if_pos hcond]
  · simp [clickInfoToggle, displayFundInfo, hs, clickInfoPair, infoToggleStep]
  · simp [clickInfoToggle, displayFundInfo, hs, clickInfoPair, infoToggleStep]

/-- C9 witness: listener accumulation and the one-click fixed point after
two invocations, on concrete fund-info objects and an 11-element list. -/
theorem toggle_listeners_accumulate_witness :
    (displayFundInfo sampleFundInfoA initFundInfoState).listeners
      = initFundInfoState.listeners ++ [sampleFundInfoA] ∧
    (displayFunds elevenFunds initFundListState).listeners
      = initFundListState.listeners ++ [elevenFunds] ∧
    (clickInfoToggle (displayFundInfo sampleFundInfoB
        (displayFundInfo sampleFundInfoA initFundInfoState))).content
      = (displayFundInfo sampleFundInfoB
          (displayFundInfo sampleFundInfoA initFundInfoState)).content ∧
    (clickInfoToggle (displayFundInfo sampleFundInfoB
        (displayFundInfo sampleFundInfoA initFundInfoState))).label
      = (displayFundInfo sampleFundInfoB
          (displayFundInfo sampleFundInfoA initFundInfoState)).label :=
  toggle_listeners_accumulate sampleFundInfoA sampleFundInfoB elevenFunds
    initFundInfoState initFundListState (by decide) rfl

/-- C7 counterexample: a non-2xx response is NOT treated as a failure.
The handlers never read `response.status`, so a 500 response whose body
is well-formed JSON with a `data` field is processed exactly like a
success: the fund list is re-rendered (content updated) and nothing is
logged — contradicting both the logging and the no-update parts of the
claim for the non-2xx failure class. -/
theorem non2xx_rendered_counterexample :
    isFailure (FetchOutcome.response 500 (some { data := some ["X"] }) :
        FetchOutcome FundsResponse) ∧
    (handleFundFormResponse (FetchOutcome.response 500 (some { data := some ["X"] }))
        initFundListState).2 = false ∧
    (handleFundFormResponse (FetchOutcome.response 500 (some { data := some ["X"] }))
        initFundListState).1.fundList = ["X"] ∧
    initFundListState.fundList ≠ (["X"] : List String) :=
  ⟨Or.inr (by decide), rfl, rfl, by decide⟩

/-- C7 amended: network failures and JSON-parse failures are caught at
the call site and logged, and on those failures no rendered content is
updated; the HTTP status code, however, is never inspected, so a non-2xx
response is processed exactly like a 2xx response with the same body
(rendering its content when it is well-formed) rather than being treated
as a failure. This holds for the fund-list handler and for the optimize
handler of `main.js`. -/
theorem handlers_failure_behaviour :
    (∀ s : FundListState, handleFundFormResponse FetchOutcome.networkError s = (s, true)) ∧
    (∀ (st : Nat) (s : FundListState),
      handleFundFormResponse (FetchOutcome.response st none) s = (s, true)) ∧
    (∀ (st st' : Nat) (b : Option FundsResponse) (s : FundListState),
      handleFundFormResponse (FetchOutcome.response st b) s
        = handleFundFormResponse (FetchOutcome.response st' b) s) ∧
    (∀ r : List (String × String),
      handleOptimizeFormMain FetchOutcome.networkError r = (r, true)) ∧
    (∀ (st : Nat) (r : List (String × String)),
      handleOptimizeFormMain (FetchOutcome.response st none) r = (r, true)) ∧
    (∀ (st st' : Nat) (b : Option OptimizeResponseMain) (r : List (String × String)),
      handleOptimizeFormMain (FetchOutcome.response st b) r
        = handleOptimizeFormMain (FetchOutcome.response st' b) r) := by
  refine ⟨fun _ => rfl, fun _ _ => rfl, ?_, fun _ => rfl, fun _ _ => rfl, ?_⟩
  · intro st st' b s; cases b <;> rfl
  · intro st st' b r; cases b <;> rfl

/-- C8: given the weights mapping with A at 0.6 and B at 0.4, the
rendered table has exactly one row per fund code, showing A with
"60.00%" and B with "40.00%". The weights are modelled as exact
rationals; at these inputs the IEEE double products `0.6 * 100` and
`0.4 * 100` are exactly 60 and 40, so `toFixed(2)` prints the same
digits. -/
theorem displayResults_weights_AB :
    displayResults [("A", 3 / 5), ("B", 2 / 5)] = [("A", "60.00%"), ("B", "40.00%")] := by
  have hA : ratFloor ((3 : ℚ) / 5 * 100 * 100 + 1 / 2) = 6000 := by
    norm_num [ratFloor]
    decide
  have hB : ratFloor ((2 : ℚ) / 5 * 100 * 100 + 1 / 2) = 4000 := by
    norm_num [ratFloor]
    decide
  simp only [displayResults, List.map_cons, List.map_nil, toFixed2, hA, hB]
  decide

theorem splitStep_ne_nil (sep c : Char) (acc : List (List Char)) :
    splitStep sep c acc ≠ [] := by
  unfold splitStep
  by_cases h : c = sep
  · simp [h]
  · cases acc <;> simp [h]

theorem jsSplit_ne_nil (sep : Char) (s : String) : jsSplit sep s ≠ [] := by
  unfold jsSplit
  rw [Ne, List.map_eq_nil_iff]
  cases hd : s.data with
  | nil => simp
  | cons c cs =>
    rw [List.foldr_cons]
    exact splitStep_ne_nil sep c _

/-- C10: splitting any input string on a comma yields a non-empty list,
so the `fund_pool` / `fund_codes` field of every optimize and backtest
request body has at least one element; the empty input still produces
the one-element list containing the empty string. -/
theorem fund_pool_never_empty :
    (∀ (s m : String) (ra : ℚ), (mkOptimizeRequest s m ra).fund_pool ≠ []) ∧
    (∀ s d1 d2 : String, (mkBacktestRequest s d1 d2).fund_pool ≠ []) ∧
    (∀ s d1 d2 : String, (mkOptimizeRequestMain s d1 d2).fund_codes ≠ []) ∧
    (∀ (m : String) (ra : ℚ), (mkOptimizeRequest "" m ra).fund_pool = [""]) ∧
    (∀ d1 d2 : String, (mkBacktestRequest "" d1 d2).fund_pool = [""]) ∧
    (∀ d1 d2 : String, (mkOptimizeRequestMain "" d1 d2).fund_codes = [""]) := by
  refine ⟨fun s _ _ => jsSplit_ne_nil ',' s, fun s _ _ => jsSplit_ne_nil ',' s,
    fun s _ _ => jsSplit_ne_nil ',' s, fun _ _ => rfl, fun _ _ => rfl, fun _ _ => rfl⟩

end FundFrontend
